import Mathlib

/-!
Shallow embedding of the OpenSezMe garage-door controller.

The repository has two firmware variants:
* variant A (src/unnamed/part_000): three entry points openCommand, closeCommand,
  checkCommand, each taking a command string prefixed with a door identifier,
  plus a poll loop that publishes state-change events tagged with a command source;
* variant B (src/doorController.ino): a single entry point doorCommand that
  recognizes the literal command prefixes OPEN, CLOSE, CHECKSINGLE, CHECKDOUBLE.

Hardware effects are made explicit: a digitalRead of a sense-input pin becomes a
Nat argument, and each engageDoor pulse is recorded as the pulsed pin number in a
result list, so that "exactly one actuation pulse" is the length of that list.
-/

/-- Door states, embedding the C enum DoorState (DoorUp, DoorDown, StateUnknown). -/
inductive DoorState where
  | DoorUp
  | DoorDown
  | StateUnknown
deriving DecidableEq, Repr

/-- Integer value of a DoorState, as the C cast (int)state yields it from the
enum declaration order: DoorUp = 0, DoorDown = 1, StateUnknown = 2. -/
def DoorState.toInt : DoorState → Int
  | DoorState.DoorUp => 0
  | DoorState.DoorDown => 1
  | DoorState.StateUnknown => 2

/-- The door state string exported for a closed (down) door. -/
def ClosedState : String := "Down"

/-- The door state string exported for an opened (up) door. -/
def OpenedState : String := "Up"

/-- Pin identifiers D0-D7 of the Particle Core, embedded as plain numbers. -/
def D0 : Nat := 0

/-- Pin D1. -/
def D1 : Nat := 1

/-- Pin D2. -/
def D2 : Nat := 2

/-- Pin D4. -/
def D4 : Nat := 4

/-- Pin D5. -/
def D5 : Nat := 5

/-- Pin D6. -/
def D6 : Nat := 6

/-- Door record: control pin, sense-output pin, sense-input pin, sensed state,
and the state string exported to the server. -/
structure Door where
  controlPin : Nat
  senseOutPin : Nat
  senseInPin : Nat
  state : DoorState
  stateString : String
deriving DecidableEq, Repr

/-- Embeds the Particle String method startsWith used by every dispatcher:
true when the second string is a leading substring of the first. -/
def stringStartsWith (s p : String) : Bool := p.data.isPrefixOf s.data

/-- Embeds engageDoor: pulse the control line high then low, return 1.
The pulse is recorded as the pulsed pin number. -/
def engageDoor (door : Door) : Int × List Nat := (1, [door.controlPin])

/-- Embeds readDoorState: the digitalRead sample of the sense-input pin is the
argument; reading 1 (reed circuit closed) means DoorDown, anything else DoorUp. -/
def readDoorState (senseInValue : Nat) : DoorState :=
  if senseInValue = 1 then DoorState.DoorDown else DoorState.DoorUp

/-- Embeds updateDoorState: sample the sensor, write the sensed state and its
string form into the door record, and return the sensed state with the updated
record. -/
def updateDoorState (door : Door) (senseInValue : Nat) : DoorState × Door :=
  let sensedState := readDoorState senseInValue
  if sensedState = DoorState.DoorDown then
    (sensedState, { door with state := DoorState.DoorDown, stateString := ClosedState })
  else
    (sensedState, { door with state := DoorState.DoorUp, stateString := OpenedState })

/-- Door identity used to speak about "the named door" of a variant-A command. -/
inductive DoorId where
  | single
  | double
deriving DecidableEq, Repr

namespace VariantA

/-- Valid door identifier prefix for the single door. -/
def SingleDoor : String := "SINGLE"

/-- Valid door identifier prefix for the double door. -/
def DoubleDoor : String := "DOUBLE"

/-- Command-source tag value for a wall-switch (default) actuation. -/
def WallSwitch : String := "WallSwitch"

/-- Command-source tag value for a remote (cloud) actuation. -/
def ParticleCommand : String := "ParticleCommand"

/-- The mutable globals of variant A: the command-source tag, the two cached
last-seen states, and the two door records. -/
structure Sys where
  commandSource : String
  lastSingleDoorState : DoorState
  lastDoubleDoorState : DoorState
  singleDoor : Door
  doubleDoor : Door
deriving DecidableEq, Repr

/-- The initial globals of variant A at process start. -/
def initSys : Sys :=
  { commandSource := WallSwitch
    lastSingleDoorState := DoorState.StateUnknown
    lastDoubleDoorState := DoorState.StateUnknown
    singleDoor := { controlPin := D0, senseOutPin := D1, senseInPin := D2,
                    state := DoorState.StateUnknown, stateString := "" }
    doubleDoor := { controlPin := D4, senseOutPin := D5, senseInPin := D6,
                    state := DoorState.StateUnknown, stateString := "" } }

/-- The door a variant-A command names, if any: the code tests the SINGLE
prefix first, then the DOUBLE prefix. -/
def namedDoor (command : String) : Option DoorId :=
  if stringStartsWith command SingleDoor then some DoorId.single
  else if stringStartsWith command DoubleDoor then some DoorId.double
  else none

/-- Projection of a system state at a door identity. -/
def doorOf (s : Sys) : DoorId → Door
  | DoorId.single => s.singleDoor
  | DoorId.double => s.doubleDoor

/-- Embeds openCommand: engage the named door when it is down, tagging the
command source; result is the returned int, the new globals, and the pulses. -/
def openCommand (command : String) (s : Sys) : Int × Sys × List Nat :=
  if stringStartsWith command SingleDoor then
    if s.singleDoor.state = DoorState.DoorDown then
      let r := engageDoor s.singleDoor
      (r.1, { s with commandSource := ParticleCommand }, r.2)
    else (0, s, [])
  else if stringStartsWith command DoubleDoor then
    if s.doubleDoor.state = DoorState.DoorDown then
      let r := engageDoor s.doubleDoor
      (r.1, { s with commandSource := ParticleCommand }, r.2)
    else (0, s, [])
  else (-1, s, [])

/-- Embeds closeCommand: engage the named door when it is up, tagging the
command source; result is the returned int, the new globals, and the pulses. -/
def closeCommand (command : String) (s : Sys) : Int × Sys × List Nat :=
  if stringStartsWith command SingleDoor then
    if s.singleDoor.state = DoorState.DoorUp then
      let r := engageDoor s.singleDoor
      (r.1, { s with commandSource := ParticleCommand }, r.2)
    else (0, s, [])
  else if stringStartsWith command DoubleDoor then
    if s.doubleDoor.state = DoorState.DoorUp then
      let r := engageDoor s.doubleDoor
      (r.1, { s with commandSource := ParticleCommand }, r.2)
    else (0, s, [])
  else (-1, s, [])

/-- Embeds checkCommand: report the named door's tracked state as an int. -/
def checkCommand (command : String) (s : Sys) : Int × Sys × List Nat :=
  if stringStartsWith command SingleDoor then (s.singleDoor.state.toInt, s, [])
  else if stringStartsWith command DoubleDoor then (s.doubleDoor.state.toInt, s, [])
  else (-1, s, [])

/-- A Spark.publish event: its name string and its data string (the
command-source tag at publish time). -/
structure Event where
  name : String
  data : String
deriving DecidableEq, Repr

/-- Embeds one pass of loop(): update the double door then the single door from
their sense-input samples; for each, when the sensed value differs from the
cached last-seen value, publish one event named after the door and the new state
string carrying the current command-source tag, record the new value, and reset
the command-source tag to the wall-switch default. -/
def loopTick (s : Sys) (doubleSenseIn singleSenseIn : Nat) : Sys × List Event :=
  let rd := updateDoorState s.doubleDoor doubleSenseIn
  let s1 : Sys := { s with doubleDoor := rd.2 }
  let step1 : Sys × List Event :=
    if rd.1 ≠ s1.lastDoubleDoorState then
      ({ s1 with lastDoubleDoorState := rd.1, commandSource := WallSwitch },
        [{ name := "double door " ++ (if rd.1 = DoorState.DoorDown then ClosedState else OpenedState),
           data := s1.commandSource }])
    else (s1, [])
  let s2 := step1.1
  let rs := updateDoorState s2.singleDoor singleSenseIn
  let s3 : Sys := { s2 with singleDoor := rs.2 }
  if rs.1 ≠ s3.lastSingleDoorState then
    (({ s3 with lastSingleDoorState := rs.1, commandSource := WallSwitch } : Sys),
      step1.2 ++ [{ name := "single door " ++ (if rs.1 = DoorState.DoorDown then ClosedState else OpenedState),
                    data := s3.commandSource }])
  else (s3, step1.2)

/-- Iterate loopTick over a list of (double, single) sense-input samples,
concatenating the published events in order. -/
def runTicks (s : Sys) : List (Nat × Nat) → Sys × List Event
  | [] => (s, [])
  | i :: rest =>
    let r := loopTick s i.1 i.2
    let rr := runTicks r.1 rest
    (rr.1, r.2 ++ rr.2)

/-- Test fixture: the start state with the single door tracked as down. -/
def sysSingleDown : Sys :=
  { initSys with singleDoor := { initSys.singleDoor with state := DoorState.DoorDown } }

/-- Test fixture: the start state with the single door tracked as up. -/
def sysSingleUp : Sys :=
  { initSys with singleDoor := { initSys.singleDoor with state := DoorState.DoorUp } }

end VariantA

namespace VariantB

/-- Valid command prefix to open the single door. -/
def OpenCommand : String := "OPEN"

/-- Valid command prefix to close the single door. -/
def CloseCommand : String := "CLOSE"

/-- Valid command prefix to query the single door state. -/
def CheckSingleCommand : String := "CHECKSINGLE"

/-- Valid command prefix to query the double door state. -/
def CheckDoubleCommand : String := "CHECKDOUBLE"

/-- Offset added to a door state in a CHECKxxx response. -/
def StateOffset : Int := 10

/-- The mutable globals of variant B: the two door records. -/
structure Sys where
  singleDoor : Door
  doubleDoor : Door
deriving DecidableEq, Repr

/-- Embeds doorCommand: parse the command prefix; OPEN and CLOSE act only on the
single door guarded by its tracked state, CHECKSINGLE and CHECKDOUBLE report
StateOffset plus the respective tracked state, anything else returns -1. -/
def doorCommand (command : String) (s : Sys) : Int × Sys × List Nat :=
  if stringStartsWith command OpenCommand then
    if s.singleDoor.state = DoorState.DoorDown then
      let r := engageDoor s.singleDoor
      (r.1, s, r.2)
    else (0, s, [])
  else if stringStartsWith command CloseCommand then
    if s.singleDoor.state = DoorState.DoorUp then
      let r := engageDoor s.singleDoor
      (r.1, s, r.2)
    else (0, s, [])
  else if stringStartsWith command CheckSingleCommand then
    (StateOffset + s.singleDoor.state.toInt, s, [])
  else if stringStartsWith command CheckDoubleCommand then
    (StateOffset + s.doubleDoor.state.toInt, s, [])
  else (-1, s, [])

/-- Test fixture: a variant-B state with the single door tracked as down and
the double door not yet sampled. -/
def sysBDown : Sys :=
  { singleDoor := { controlPin := D0, senseOutPin := D1, senseInPin := D2,
                    state := DoorState.DoorDown, stateString := "" }
    doubleDoor := { controlPin := D4, senseOutPin := D5, senseInPin := D6,
                    state := DoorState.StateUnknown, stateString := "" } }

end VariantB

theorem dataPrefix_of_startsWith {s p : String} (h : stringStartsWith s p = true) :
    p.data <+: s.data := by
  unfold stringStartsWith at h
  exact List.isPrefixOf_iff_prefix.mp h

theorem startsWith_excl {s p q : String} (hp : stringStartsWith s p = true)
    (h1 : ¬ p.data <+: q.data) (h2 : ¬ q.data <+: p.data) :
    stringStartsWith s q = false := by
  by_contra h
  rw [Bool.not_eq_false] at h
  rcases List.prefix_or_prefix_of_prefix (dataPrefix_of_startsWith h) (dataPrefix_of_startsWith hp)
    with hc | hc
  · exact h2 hc
  · exact h1 hc

theorem updateDoorState_fst (door : Door) (v : Nat) :
    (updateDoorState door v).1 = readDoorState v := by
  by_cases h : readDoorState v = DoorState.DoorDown <;>
    simp [updateDoorState, h]

theorem readDoorState_ne_unknown (v : Nat) :
    readDoorState v ≠ DoorState.StateUnknown := by
  unfold readDoorState
  split <;> simp

/-- C7: updateDoorState maps a sensed 1 to DoorDown with the label "Down" and
any other sample to DoorUp with the label "Up", returning the sensed state;
afterwards the label is the textual rendering of the state and the state field
is never StateUnknown. -/
theorem C7_updateDoorState_roundtrip (door : Door) (senseInValue : Nat) :
    (senseInValue = 1 →
      updateDoorState door senseInValue =
        (DoorState.DoorDown,
          { door with state := DoorState.DoorDown, stateString := "Down" }))
  ∧ (senseInValue ≠ 1 →
      updateDoorState door senseInValue =
        (DoorState.DoorUp,
          { door with state := DoorState.DoorUp, stateString := "Up" }))
  ∧ ((updateDoorState door senseInValue).2.stateString =
      (if (updateDoorState door senseInValue).2.state = DoorState.DoorDown
        then "Down" else "Up"))
  ∧ (updateDoorState door senseInValue).2.state ≠ DoorState.StateUnknown := by
  by_cases h : senseInValue = 1 <;>
    simp [updateDoorState, readDoorState, h, ClosedState, OpenedState]

/-- C7 witness: a sense sample of 1 on a concrete door yields DoorDown and the
label "Down". -/
theorem C7_witness :
    updateDoorState ({ controlPin := 0, senseOutPin := 1, senseInPin := 2,
                       state := DoorState.StateUnknown, stateString := "" }) 1 =
      (DoorState.DoorDown,
        { controlPin := 0, senseOutPin := 1, senseInPin := 2,
          state := DoorState.DoorDown, stateString := "Down" }) :=
  (C7_updateDoorState_roundtrip _ 1).1 rfl

/-- C8: checkCommand answers the integer value of the named door's tracked
state, where DoorUp is 0, DoorDown is 1 and StateUnknown is 2, and answers -1
when the command names no recognized door. -/
theorem C8_checkCommand_reports_state (cmd : String) (s : VariantA.Sys) :
    (stringStartsWith cmd VariantA.SingleDoor = true →
        (VariantA.checkCommand cmd s).1 = DoorState.toInt s.singleDoor.state)
  ∧ (stringStartsWith cmd VariantA.DoubleDoor = true →
        (VariantA.checkCommand cmd s).1 = DoorState.toInt s.doubleDoor.state)
  ∧ (stringStartsWith cmd VariantA.SingleDoor = false →
      stringStartsWith cmd VariantA.DoubleDoor = false →
        (VariantA.checkCommand cmd s).1 = -1)
  ∧ DoorState.toInt DoorState.DoorUp = 0
  ∧ DoorState.toInt DoorState.DoorDown = 1
  ∧ DoorState.toInt DoorState.StateUnknown = 2 := by
  refine ⟨?_, ?_, ?_, rfl, rfl, rfl⟩
  · intro h
    simp [VariantA.checkCommand, h]
  · intro h
    have hs : stringStartsWith cmd VariantA.SingleDoor = false :=
      startsWith_excl h (by decide) (by decide)
    simp [VariantA.checkCommand, h, hs]
  · intro h1 h2
    simp [VariantA.checkCommand, h1, h2]

/-- C8 witness: checking the double door of the start state answers 2, the
integer value of StateUnknown. -/
theorem C8_witness :
    (VariantA.checkCommand "DOUBLE status" VariantA.initSys).1 = 2 :=
  (C8_checkCommand_reports_state "DOUBLE status" VariantA.initSys).2.1 (by decide)

/-- C10: whenever openCommand or closeCommand returns 0 or -1, the globals are
exactly as before the call; whenever it returns 1, the globals change only by
the command-source tag becoming ParticleCommand; and the return value is
always one of -1, 0, 1. -/
theorem C10_open_close_frame (cmd : String) (s : VariantA.Sys) :
    (((VariantA.openCommand cmd s).1 = 0 ∨ (VariantA.openCommand cmd s).1 = -1) →
        (VariantA.openCommand cmd s).2.1 = s)
  ∧ ((VariantA.openCommand cmd s).1 = 1 →
        (VariantA.openCommand cmd s).2.1
          = { s with commandSource := VariantA.ParticleCommand })
  ∧ (((VariantA.closeCommand cmd s).1 = 0 ∨ (VariantA.closeCommand cmd s).1 = -1) →
        (VariantA.closeCommand cmd s).2.1 = s)
  ∧ ((VariantA.closeCommand cmd s).1 = 1 →
        (VariantA.closeCommand cmd s).2.1
          = { s with commandSource := VariantA.ParticleCommand })
  ∧ ((VariantA.openCommand cmd s).1 = -1 ∨ (VariantA.openCommand cmd s).1 = 0
        ∨ (VariantA.openCommand cmd s).1 = 1)
  ∧ ((VariantA.closeCommand cmd s).1 = -1 ∨ (VariantA.closeCommand cmd s).1 = 0
        ∨ (VariantA.closeCommand cmd s).1 = 1) := by
  by_cases h1 : stringStartsWith cmd VariantA.SingleDoor = true <;>
  by_cases h2 : stringStartsWith cmd VariantA.DoubleDoor = true <;>
  cases hss : s.singleDoor.state <;>
  cases hds : s.doubleDoor.state <;>
  simp [VariantA.openCommand, VariantA.closeCommand, engageDoor, h1, h2, hss, hds]

/-- C10 witness: opening the single door when it is up is a no-op that leaves
the globals untouched. -/
theorem C10_witness :
    (VariantA.openCommand "SINGLE" VariantA.sysSingleUp).2.1 = VariantA.sysSingleUp :=
  (C10_open_close_frame "SINGLE" VariantA.sysSingleUp).1 (Or.inl (by decide))

/-- C4: a variant-A command string starting with neither SINGLE nor DOUBLE
makes each of the three entry points return -1 with no pulse and with the
globals (door records, caches, command-source tag) exactly unchanged. -/
theorem C4_unrecognized_door (cmd : String) (s : VariantA.Sys)
    (h1 : stringStartsWith cmd VariantA.SingleDoor = false)
    (h2 : stringStartsWith cmd VariantA.DoubleDoor = false) :
    VariantA.openCommand cmd s = (-1, s, [])
  ∧ VariantA.closeCommand cmd s = (-1, s, [])
  ∧ VariantA.checkCommand cmd s = (-1, s, []) := by
  simp [VariantA.openCommand, VariantA.closeCommand, VariantA.checkCommand, h1, h2]

/-- C4 witness: the command "garage" is rejected by openCommand with -1, no
pulse and unchanged globals. -/
theorem C4_witness :
    VariantA.openCommand "garage" VariantA.initSys = (-1, VariantA.initSys, []) :=
  (C4_unrecognized_door "garage" VariantA.initSys (by decide) (by decide)).1

/-- C1: on a command naming a recognized door, openCommand returns 1 with
exactly one pulse exactly when that door's tracked state is DoorDown, and
returns 0 with no pulse otherwise (DoorUp or StateUnknown); closeCommand is
symmetric, engaging exactly when the tracked state is DoorUp. -/
theorem C1_open_close_guard (cmd : String) (s : VariantA.Sys) (d : DoorId)
    (h : VariantA.namedDoor cmd = some d) :
    (((VariantA.openCommand cmd s).1 = 1
        ∧ ((VariantA.openCommand cmd s).2.2).length = 1)
      ↔ (VariantA.doorOf s d).state = DoorState.DoorDown)
  ∧ ((VariantA.doorOf s d).state ≠ DoorState.DoorDown →
      (VariantA.openCommand cmd s).1 = 0 ∧ (VariantA.openCommand cmd s).2.2 = [])
  ∧ (((VariantA.closeCommand cmd s).1 = 1
        ∧ ((VariantA.closeCommand cmd s).2.2).length = 1)
      ↔ (VariantA.doorOf s d).state = DoorState.DoorUp)
  ∧ ((VariantA.doorOf s d).state ≠ DoorState.DoorUp →
      (VariantA.closeCommand cmd s).1 = 0 ∧ (VariantA.closeCommand cmd s).2.2 = []) := by
  unfold VariantA.namedDoor at h
  by_cases h1 : stringStartsWith cmd VariantA.SingleDoor = true
  · rw [if_pos h1] at h
    injection h with h
    subst h
    cases hss : s.singleDoor.state <;>
      simp [VariantA.openCommand, VariantA.closeCommand, VariantA.doorOf, engageDoor, h1, hss]
  · rw [if_neg h1] at h
    by_cases h2 : stringStartsWith cmd VariantA.DoubleDoor = true
    · rw [if_pos h2] at h
      injection h with h
      subst h
      have h1f : stringStartsWith cmd VariantA.SingleDoor = false := by
        simpa using h1
      cases hds : s.doubleDoor.state <;>
        simp [VariantA.openCommand, VariantA.closeCommand, VariantA.doorOf, engageDoor,
          h1f, h2, hds]
    · rw [if_neg h2] at h
      exact absurd h (by simp)

/-- C1 witness: opening the single door of a state where it is tracked down
returns 1 with exactly one pulse. -/
theorem C1_witness :
    (VariantA.openCommand "SINGLE" VariantA.sysSingleDown).1 = 1
  ∧ ((VariantA.openCommand "SINGLE" VariantA.sysSingleDown).2.2).length = 1 :=
  (C1_open_close_guard "SINGLE" VariantA.sysSingleDown DoorId.single (by decide)).1.mpr rfl

/-- C2 as stated is false: from a state where the single door is tracked down,
closeCommand on the command string "close SINGLE" does not return 1 with one
pulse and the ParticleCommand tag; the string starts with neither door
identifier, so the call returns -1 with no pulse and an unchanged tag. -/
theorem C2_counterexample :
    ¬ ((VariantA.closeCommand "close SINGLE" VariantA.sysSingleDown).1 = 1
      ∧ ((VariantA.closeCommand "close SINGLE" VariantA.sysSingleDown).2.2).length = 1
      ∧ (VariantA.closeCommand "close SINGLE" VariantA.sysSingleDown).2.1.commandSource
          = VariantA.ParticleCommand) := by decide

/-- C2 amended: from a state where the single door is tracked up, closeCommand
on the command string "SINGLE" returns 1, produces exactly one pulse on the
single door's control pin, and sets the command-source tag to ParticleCommand. -/
theorem C2_close_single_engages (s : VariantA.Sys)
    (h : s.singleDoor.state = DoorState.DoorUp) :
    VariantA.closeCommand "SINGLE" s
      = (1, { s with commandSource := VariantA.ParticleCommand },
          [s.singleDoor.controlPin]) := by
  simp [VariantA.closeCommand, engageDoor, h,
    (by decide : stringStartsWith "SINGLE" VariantA.SingleDoor = true)]

/-- C2 witness: the amended scenario on a concrete state with the single door
up. -/
theorem C2_witness :
    VariantA.closeCommand "SINGLE" VariantA.sysSingleUp
      = (1, { VariantA.sysSingleUp with commandSource := VariantA.ParticleCommand },
          [VariantA.sysSingleUp.singleDoor.controlPin]) :=
  C2_close_single_engages VariantA.sysSingleUp rfl

/-- C9: checkCommand never changes the globals and never pulses, and variant
B's doorCommand on a CHECKSINGLE or CHECKDOUBLE command never changes the
globals and never pulses. -/
theorem C9_check_queries_pure (cmd : String) (sA : VariantA.Sys) (sB : VariantB.Sys) :
    ((VariantA.checkCommand cmd sA).2.1 = sA ∧ (VariantA.checkCommand cmd sA).2.2 = [])
  ∧ (stringStartsWith cmd VariantB.CheckSingleCommand = true →
      (VariantB.doorCommand cmd sB).2.1 = sB ∧ (VariantB.doorCommand cmd sB).2.2 = [])
  ∧ (stringStartsWith cmd VariantB.CheckDoubleCommand = true →
      (VariantB.doorCommand cmd sB).2.1 = sB ∧ (VariantB.doorCommand cmd sB).2.2 = []) := by
  refine ⟨?_, ?_, ?_⟩
  · by_cases h1 : stringStartsWith cmd VariantA.SingleDoor = true <;>
    by_cases h2 : stringStartsWith cmd VariantA.DoubleDoor = true <;>
    simp [VariantA.checkCommand, h1, h2]
  · intro h
    have ho : stringStartsWith cmd VariantB.OpenCommand = false :=
      startsWith_excl h (by decide) (by decide)
    have hc : stringStartsWith cmd VariantB.CloseCommand = false :=
      startsWith_excl h (by decide) (by decide)
    simp [VariantB.doorCommand, h, ho, hc]
  · intro h
    have ho : stringStartsWith cmd VariantB.OpenCommand = false :=
      startsWith_excl h (by decide) (by decide)
    have hc : stringStartsWith cmd VariantB.CloseCommand = false :=
      startsWith_excl h (by decide) (by decide)
    have hcs : stringStartsWith cmd VariantB.CheckSingleCommand = false :=
      startsWith_excl h (by decide) (by decide)
    simp [VariantB.doorCommand, h, ho, hc, hcs]

/-- C9 witness: a CHECKSINGLE command leaves a concrete variant-B state
untouched with no pulse. -/
theorem C9_witness :
    (VariantB.doorCommand "CHECKSINGLE" VariantB.sysBDown).2.1 = VariantB.sysBDown
  ∧ (VariantB.doorCommand "CHECKSINGLE" VariantB.sysBDown).2.2 = [] :=
  (C9_check_queries_pure "CHECKSINGLE" VariantA.initSys VariantB.sysBDown).2.1 (by decide)

/-- C3: variant B's doorCommand acts by command prefix: OPEN engages exactly
when the single door is tracked down, CLOSE exactly when it is tracked up
(0 otherwise), CHECKSINGLE and CHECKDOUBLE answer 10 plus the respective
tracked state (10 up, 11 down, 12 unknown), anything else answers -1, and
every pulse it ever produces is on the single door's control pin. -/
theorem C3_doorCommand_dispatch (cmd : String) (s : VariantB.Sys) :
    (stringStartsWith cmd VariantB.OpenCommand = true →
        ((VariantB.doorCommand cmd s).1 = 1 ↔ s.singleDoor.state = DoorState.DoorDown)
      ∧ (s.singleDoor.state ≠ DoorState.DoorDown → (VariantB.doorCommand cmd s).1 = 0))
  ∧ (stringStartsWith cmd VariantB.CloseCommand = true →
        ((VariantB.doorCommand cmd s).1 = 1 ↔ s.singleDoor.state = DoorState.DoorUp)
      ∧ (s.singleDoor.state ≠ DoorState.DoorUp → (VariantB.doorCommand cmd s).1 = 0))
  ∧ (stringStartsWith cmd VariantB.CheckSingleCommand = true →
      (VariantB.doorCommand cmd s).1 = 10 + DoorState.toInt s.singleDoor.state)
  ∧ (stringStartsWith cmd VariantB.CheckDoubleCommand = true →
      (VariantB.doorCommand cmd s).1 = 10 + DoorState.toInt s.doubleDoor.state)
  ∧ (stringStartsWith cmd VariantB.OpenCommand = false →
     stringStartsWith cmd VariantB.CloseCommand = false →
     stringStartsWith cmd VariantB.CheckSingleCommand = false →
     stringStartsWith cmd VariantB.CheckDoubleCommand = false →
      (VariantB.doorCommand cmd s).1 = -1)
  ∧ (∀ p ∈ (VariantB.doorCommand cmd s).2.2, p = s.singleDoor.controlPin) := by
  refine ⟨?_, ?_, ?_, ?_, ?_, ?_⟩
  · intro h
    cases hss : s.singleDoor.state <;>
      simp [VariantB.doorCommand, engageDoor, h, hss]
  · intro h
    have ho : stringStartsWith cmd VariantB.OpenCommand = false :=
      startsWith_excl h (by decide) (by decide)
    cases hss : s.singleDoor.state <;>
      simp [VariantB.doorCommand, engageDoor, h, ho, hss]
  · intro h
    have ho : stringStartsWith cmd VariantB.OpenCommand = false :=
      startsWith_excl h (by decide) (by decide)
    have hc : stringStartsWith cmd VariantB.CloseCommand = false :=
      startsWith_excl h (by decide) (by decide)
    simp [VariantB.doorCommand, VariantB.StateOffset, h, ho, hc]
  · intro h
    have ho : stringStartsWith cmd VariantB.OpenCommand = false :=
      startsWith_excl h (by decide) (by decide)
    have hc : stringStartsWith cmd VariantB.CloseCommand = false :=
      startsWith_excl h (by decide) (by decide)
    have hcs : stringStartsWith cmd VariantB.CheckSingleCommand = false :=
      startsWith_excl h (by decide) (by decide)
    simp [VariantB.doorCommand, VariantB.StateOffset, h, ho, hc, hcs]
  · intro h1 h2 h3 h4
    simp [VariantB.doorCommand, h1, h2, h3, h4]
  · by_cases h1 : stringStartsWith cmd VariantB.OpenCommand = true <;>
    by_cases h2 : stringStartsWith cmd VariantB.CloseCommand = true <;>
    by_cases h3 : stringStartsWith cmd VariantB.CheckSingleCommand = true <;>
    by_cases h4 : stringStartsWith cmd VariantB.CheckDoubleCommand = true <;>
    cases hss : s.singleDoor.state <;>
      simp [VariantB.doorCommand, engageDoor, h1, h2, h3, h4, hss]

/-- C3 witness: an OPEN command on a state with the single door tracked down
returns 1, and a CHECKDOUBLE command on the same state answers 12 since the
double door is still StateUnknown. -/
theorem C3_witness :
    (VariantB.doorCommand "OPEN" VariantB.sysBDown).1 = 1
  ∧ (VariantB.doorCommand "CHECKDOUBLE" VariantB.sysBDown).1 = 12 :=
  ⟨((C3_doorCommand_dispatch "OPEN" VariantB.sysBDown).1 (by decide)).1.mpr rfl,
    by
      have h := (C3_doorCommand_dispatch "CHECKDOUBLE" VariantB.sysBDown).2.2.2.1 (by decide)
      simpa using h⟩

/-- C5: on one poll tick, each door produces a notification exactly when the
sensed value differs from its cached last-seen value (so zero when equal, one
when different), the caches end up holding the sensed values, the very first
tick after startup (both caches StateUnknown) publishes exactly two
notifications, and every published notification is named with the Up or Down
label, never with StateUnknown. -/
theorem C5_loopTick_transitions (s : VariantA.Sys) (dIn sIn : Nat) :
    (((VariantA.loopTick s dIn sIn).2.countP
        (fun e => stringStartsWith e.name "double door"))
      = if readDoorState dIn = s.lastDoubleDoorState then 0 else 1)
  ∧ (((VariantA.loopTick s dIn sIn).2.countP
        (fun e => stringStartsWith e.name "single door"))
      = if readDoorState sIn = s.lastSingleDoorState then 0 else 1)
  ∧ (VariantA.loopTick s dIn sIn).1.lastDoubleDoorState = readDoorState dIn
  ∧ (VariantA.loopTick s dIn sIn).1.lastSingleDoorState = readDoorState sIn
  ∧ (s.lastDoubleDoorState = DoorState.StateUnknown →
      s.lastSingleDoorState = DoorState.StateUnknown →
      (VariantA.loopTick s dIn sIn).2.length = 2)
  ∧ (∀ e ∈ (VariantA.loopTick s dIn sIn).2,
      e.name = "double door Down" ∨ e.name = "double door Up" ∨
      e.name = "single door Down" ∨ e.name = "single door Up") := by
  have w1 : stringStartsWith "double door Down" "double door" = true := by decide
  have w2 : stringStartsWith "double door Up" "double door" = true := by decide
  have w3 : stringStartsWith "single door Down" "double door" = false := by decide
  have w4 : stringStartsWith "single door Up" "double door" = false := by decide
  have w5 : stringStartsWith "double door Down" "single door" = false := by decide
  have w6 : stringStartsWith "double door Up" "single door" = false := by decide
  have w7 : stringStartsWith "single door Down" "single door" = true := by decide
  have w8 : stringStartsWith "single door Up" "single door" = true := by decide
  by_cases hd1 : dIn = 1 <;> by_cases hs1 : sIn = 1 <;>
  cases hLD : s.lastDoubleDoorState <;> cases hLS : s.lastSingleDoorState <;>
  simp [VariantA.loopTick, updateDoorState, readDoorState, ClosedState, OpenedState,
    List.countP_cons, List.countP_nil, hd1, hs1, hLD, hLS, w1, w2, w3, w4, w5, w6, w7, w8]

/-- C5 witness: the first tick from the start state with the double door
sensed down and the single door sensed up publishes exactly two notifications
and records both sensed values in the caches. -/
theorem C5_witness :
    (VariantA.loopTick VariantA.initSys 1 0).2.length = 2
  ∧ (VariantA.loopTick VariantA.initSys 1 0).1.lastDoubleDoorState = DoorState.DoorDown :=
  ⟨(C5_loopTick_transitions VariantA.initSys 1 0).2.2.2.2.1 rfl rfl,
    (C5_loopTick_transitions VariantA.initSys 1 0).2.2.1⟩

theorem loopTick_source_facts (s : VariantA.Sys) (dIn sIn : Nat) :
    ((VariantA.loopTick s dIn sIn).2 = [] →
        (VariantA.loopTick s dIn sIn).1.commandSource = s.commandSource)
  ∧ ((VariantA.loopTick s dIn sIn).2 ≠ [] →
        (VariantA.loopTick s dIn sIn).1.commandSource = VariantA.WallSwitch)
  ∧ (∀ e ∈ ((VariantA.loopTick s dIn sIn).2).drop 1, e.data = VariantA.WallSwitch)
  ∧ (∀ e ∈ (VariantA.loopTick s dIn sIn).2,
      e.data = s.commandSource ∨ e.data = VariantA.WallSwitch) := by
  by_cases hd1 : dIn = 1 <;> by_cases hs1 : sIn = 1 <;>
  cases hLD : s.lastDoubleDoorState <;> cases hLS : s.lastSingleDoorState <;>
  simp [VariantA.loopTick, updateDoorState, readDoorState, hd1, hs1, hLD, hLS]

theorem runTicks_wallswitch (ins : List (Nat × Nat)) : ∀ s : VariantA.Sys,
    s.commandSource = VariantA.WallSwitch →
      (∀ e ∈ (VariantA.runTicks s ins).2, e.data = VariantA.WallSwitch)
    ∧ (VariantA.runTicks s ins).1.commandSource = VariantA.WallSwitch := by
  induction ins with
  | nil =>
    intro s h
    simp [VariantA.runTicks, h]
  | cons i rest ih =>
    intro s h
    have hfacts := loopTick_source_facts s i.1 i.2
    have hsrc : (VariantA.loopTick s i.1 i.2).1.commandSource = VariantA.WallSwitch := by
      by_cases hev : (VariantA.loopTick s i.1 i.2).2 = []
      · rw [hfacts.1 hev, h]
      · exact hfacts.2.1 hev
    have hrest := ih (VariantA.loopTick s i.1 i.2).1 hsrc
    constructor
    · intro e he
      simp only [VariantA.runTicks, List.mem_append] at he
      rcases he with hL | hR
      · rcases hfacts.2.2.2 e hL with hc | hc
        · rw [hc, h]
        · exact hc
      · exact hrest.1 e hR
    · simpa only [VariantA.runTicks] using hrest.2

theorem runTicks_tail_wallswitch (ins : List (Nat × Nat)) : ∀ s : VariantA.Sys,
    ∀ e ∈ ((VariantA.runTicks s ins).2).drop 1, e.data = VariantA.WallSwitch := by
  induction ins with
  | nil =>
    intro s e he
    simp [VariantA.runTicks] at he
  | cons i rest ih =>
    intro s e he
    simp only [VariantA.runTicks] at he
    cases hev : (VariantA.loopTick s i.1 i.2).2 with
    | nil =>
      rw [hev, List.nil_append] at he
      exact ih (VariantA.loopTick s i.1 i.2).1 e he
    | cons a t =>
      rw [hev, List.cons_append, List.drop_succ_cons, List.drop_zero] at he
      rcases List.mem_append.mp he with hL | hR
      · refine (loopTick_source_facts s i.1 i.2).2.2.1 e ?_
        rw [hev, List.drop_succ_cons, List.drop_zero]
        exact hL
      · have hsrc : (VariantA.loopTick s i.1 i.2).1.commandSource = VariantA.WallSwitch := by
          refine (loopTick_source_facts s i.1 i.2).2.1 ?_
          rw [hev]
          simp
        exact (runTicks_wallswitch rest _ hsrc).1 e hR

/-- C6: a tick that publishes anything leaves the command-source tag reset to
WallSwitch, within one tick only the first published notification can carry a
non-default tag, and over any run of ticks every notification after the first
carries the WallSwitch tag, so a remote tag is consumed by at most one
notification. -/
theorem C6_commandSource_reset (s : VariantA.Sys) (dIn sIn : Nat)
    (ins : List (Nat × Nat)) :
    ((VariantA.loopTick s dIn sIn).2 ≠ [] →
        (VariantA.loopTick s dIn sIn).1.commandSource = VariantA.WallSwitch)
  ∧ (∀ e ∈ ((VariantA.loopTick s dIn sIn).2).drop 1, e.data = VariantA.WallSwitch)
  ∧ (∀ e ∈ ((VariantA.runTicks s ins).2).drop 1, e.data = VariantA.WallSwitch) :=
  ⟨(loopTick_source_facts s dIn sIn).2.1, (loopTick_source_facts s dIn sIn).2.2.1,
    runTicks_tail_wallswitch ins s⟩

/-- C6 witness: the first tick from the start state publishes, and the tag is
reset to WallSwitch afterwards. -/
theorem C6_witness :
    (VariantA.loopTick VariantA.initSys 1 0).1.commandSource = VariantA.WallSwitch :=
  (C6_commandSource_reset VariantA.initSys 1 0 []).1 (by decide)
